import Mathlib

/-!
Verification of the homework-status notification bot (`homework.py`,
`exceptions.py`).

The Python program is embedded shallowly:

* JSON values are modelled by the inductive `Json`.
* Python exceptions raised by the program are modelled by `PyError`;
  fallible functions return `Except PyError _`.
* The outside world (the HTTP response to one poll, the outcome of one
  Telegram send) is an explicit per-iteration input `IterWorld`.
* The module-level mutable state of `main` (`timestamp`, `last_error`,
  `unique_error_messages`, `last_status`) is the record `BotState`,
  threaded through `main_iteration`.
* Logging is modelled by returning `LogEntry` lists.
-/

namespace HomeworkBot

/-- JSON-like values, as decoded by `response.json()` in the source.
Numbers are modelled as integers (the API's `current_date` is an epoch
timestamp; no claim involves fractional numbers). -/
inductive Json where
  | null : Json
  | bool : Bool → Json
  | num : Int → Json
  | str : String → Json
  | arr : List Json → Json
  | obj : List (String × Json) → Json

mutual

/-- Structural boolean equality on `Json` (the `deriving` handler does not
support this nested inductive, so the instance is built by hand). -/
def Json.beq : Json → Json → Bool
  | .null, .null => true
  | .bool a, .bool b => a == b
  | .num a, .num b => a == b
  | .str a, .str b => a == b
  | .arr xs, .arr ys => Json.beqList xs ys
  | .obj xs, .obj ys => Json.beqKVs xs ys
  | _, _ => false

/-- Pointwise `Json.beq` on lists. -/
def Json.beqList : List Json → List Json → Bool
  | [], [] => true
  | x :: xs, y :: ys => Json.beq x y && Json.beqList xs ys
  | _, _ => false

/-- Pointwise `Json.beq` on key-value lists. -/
def Json.beqKVs : List (String × Json) → List (String × Json) → Bool
  | [], [] => true
  | (k, v) :: xs, (k', v') :: ys => k == k' && Json.beq v v' && Json.beqKVs xs ys
  | _, _ => false

end

mutual

/-- `Json.beq` is propositional equality (stated as a definition so that the
decidable-equality instance below can be part of the data-model layer). -/
def Json.beq_iff : ∀ a b : Json, Json.beq a b = true ↔ a = b
  | .null, .null => by simp [Json.beq]
  | .bool a, .bool b => by simp [Json.beq]
  | .num a, .num b => by simp [Json.beq]
  | .str a, .str b => by simp [Json.beq]
  | .arr xs, .arr ys => by
      simp only [Json.beq, Json.beqList_iff xs ys]
      constructor
      · intro h; rw [h]
      · intro h; cases h; rfl
  | .obj xs, .obj ys => by
      simp only [Json.beq, Json.beqKVs_iff xs ys]
      constructor
      · intro h; rw [h]
      · intro h; cases h; rfl
  | .null, .bool _ | .null, .num _ | .null, .str _ | .null, .arr _ | .null, .obj _
  | .bool _, .null | .bool _, .num _ | .bool _, .str _ | .bool _, .arr _ | .bool _, .obj _
  | .num _, .null | .num _, .bool _ | .num _, .str _ | .num _, .arr _ | .num _, .obj _
  | .str _, .null | .str _, .bool _ | .str _, .num _ | .str _, .arr _ | .str _, .obj _
  | .arr _, .null | .arr _, .bool _ | .arr _, .num _ | .arr _, .str _ | .arr _, .obj _
  | .obj _, .null | .obj _, .bool _ | .obj _, .num _ | .obj _, .str _ | .obj _, .arr _ => by
      simp [Json.beq]

/-- Pointwise version of `Json.beq_iff` for lists. -/
def Json.beqList_iff : ∀ xs ys : List Json, Json.beqList xs ys = true ↔ xs = ys
  | [], [] => by simp [Json.beqList]
  | x :: xs, y :: ys => by
      simp [Json.beqList, Bool.and_eq_true, Json.beq_iff x y, Json.beqList_iff xs ys]
  | [], _ :: _ => by simp [Json.beqList]
  | _ :: _, [] => by simp [Json.beqList]

/-- Pointwise version of `Json.beq_iff` for key-value lists. -/
def Json.beqKVs_iff :
    ∀ xs ys : List (String × Json), Json.beqKVs xs ys = true ↔ xs = ys
  | [], [] => by simp [Json.beqKVs]
  | (k, v) :: xs, (k', v') :: ys => by
      simp [Json.beqKVs, Bool.and_eq_true, Json.beq_iff v v', Json.beqKVs_iff xs ys]
  | [], _ :: _ => by simp [Json.beqKVs]
  | _ :: _, [] => by simp [Json.beqKVs]

end

instance : DecidableEq Json := fun a b =>
  decidable_of_iff (Json.beq a b = true) (Json.beq_iff a b)

instance {ε α : Type} [DecidableEq ε] [DecidableEq α] : DecidableEq (Except ε α) :=
  fun a b =>
    match a, b with
    | .ok x, .ok y => decidable_of_iff (x = y) (by simp)
    | .error x, .error y => decidable_of_iff (x = y) (by simp)
    | .ok _, .error _ => isFalse (by simp)
    | .error _, .ok _ => isFalse (by simp)

/-- First-match lookup in an association list, the shallow model of Python
`dict` key lookup (Python dicts have unique keys, so first-match agrees). -/
def lookupFirst {α : Type} : List (String × α) → String → Option α
  | [], _ => none
  | (k', v) :: rest, k => if k' = k then some v else lookupFirst rest k

/-- `d.get(k)` / `k in d` for a JSON object given as its key-value list. -/
def getKey? (kvs : List (String × Json)) (k : String) : Option Json :=
  lookupFirst kvs k

/-- `response.get(k, default)` on a decoded JSON value (in the source this is
only ever applied to values already checked to be dicts). -/
def Json.getD (j : Json) (k : String) (d : Json) : Json :=
  match j with
  | .obj kvs => (getKey? kvs k).getD d
  | _ => d

/-- Python `type(x).__name__` for the modelled JSON values, used in the
`AttributeError` message text. -/
def Json.pyTypeName : Json → String
  | .null => "NoneType"
  | .bool _ => "bool"
  | .num _ => "int"
  | .str _ => "str"
  | .arr _ => "list"
  | .obj _ => "dict"

/-- The apostrophe character, Python's default string-repr quote. -/
def squote : Char := Char.ofNat 39

/-- Lower-case hexadecimal digit, for Python's \xNN escapes. -/
def hexDigit (n : Nat) : Char :=
  if n < 10 then Char.ofNat (48 + n) else Char.ofNat (87 + n)

/-- One character of a Python string `repr` under the chosen quote: escapes
the backslash, the quote itself, `\n`, `\r`, `\t`, and the remaining ASCII
control characters as `\xNN` — exactly CPython's behaviour on ASCII data.
(The escaping CPython applies to unprintable non-ASCII characters is not
modelled; no such character occurs in the program's fixed strings.) -/
def pyEscapeChar (quote : Char) (c : Char) : String :=
  if c = '\\' then "\\\\"
  else if c = quote then "\\" ++ String.singleton quote
  else if c = '\n' then "\\n"
  else if c = '\r' then "\\r"
  else if c = '\t' then "\\t"
  else if c.toNat < 32 ∨ c.toNat = 127 then
    "\\x" ++ String.singleton (hexDigit (c.toNat / 16)) ++
      String.singleton (hexDigit (c.toNat % 16))
  else String.singleton c

/-- Python `repr` of a string: single-quoted by default; double-quoted when
the string contains a single quote but no double quote. -/
def pyStrRepr (s : String) : String :=
  let quote := if s.data.contains squote && !(s.data.contains '"') then '"' else squote
  String.singleton quote ++ String.join (s.data.map (pyEscapeChar quote)) ++
    String.singleton quote

mutual

/-- Python `repr` of a decoded JSON value: scalars as Python prints them,
lists as `[repr, …]`, dicts as key-value pairs in braces — containers
render their actual contents, as an f-string does. -/
def Json.pyRepr : Json → String
  | .null => "None"
  | .bool true => "True"
  | .bool false => "False"
  | .num n => toString n
  | .str s => pyStrRepr s
  | .arr xs => "[" ++ Json.pyReprList xs ++ "]"
  | .obj kvs => "\x7b" ++ Json.pyReprKVs kvs ++ "\x7d"

/-- Comma-separated `repr`s of list elements. -/
def Json.pyReprList : List Json → String
  | [] => ""
  | [x] => Json.pyRepr x
  | x :: rest => Json.pyRepr x ++ ", " ++ Json.pyReprList rest

/-- Comma-separated `repr(key): repr(value)` pairs of a dict. -/
def Json.pyReprKVs : List (String × Json) → String
  | [] => ""
  | [(k, v)] => pyStrRepr k ++ ": " ++ Json.pyRepr v
  | (k, v) :: rest =>
      pyStrRepr k ++ ": " ++ Json.pyRepr v ++ ", " ++ Json.pyReprKVs rest

end

/-- Python `str(x)` as used by f-string interpolation in the source:
scalars exactly as Python renders them; for containers `str` falls back to
`repr`, rendering the contents. -/
def Json.pyStr : Json → String
  | .null => "None"
  | .bool true => "True"
  | .bool false => "False"
  | .num n => toString n
  | .str s => s
  | .arr xs => Json.pyRepr (.arr xs)
  | .obj kvs => Json.pyRepr (.obj kvs)

/-- The exceptions raised by the program: the three classes of
`exceptions.py` plus the built-in `TypeError` / `KeyError` raised by
`check_response` and the `AttributeError` implicit in calling `.get` on a
non-dict homework record. -/
inductive PyError where
  | apiRequestError : String → PyError
  | typeError : String → PyError
  | keyError : String → PyError
  | attributeError : String → PyError
  | homeworkStatusError : String → PyError
  | missingTokensError : String → PyError
  deriving DecidableEq

/-- Python `str(error)`.  For a `KeyError` Python renders the `repr` of the
key argument, which wraps the message in single quotes; every other class
here renders its single message argument unchanged. -/
def PyError.toStr : PyError → String
  | .apiRequestError m => m
  | .typeError m => m
  | .keyError m => "'" ++ m ++ "'"
  | .attributeError m => m
  | .homeworkStatusError m => m
  | .missingTokensError m => m

/-- Logging levels the program uses. -/
inductive LogLevel where
  | debug
  | error
  | critical
  deriving DecidableEq

/-- One emitted log record. -/
structure LogEntry where
  level : LogLevel
  text : String
  deriving DecidableEq

/-- Constant `ENDPOINT` of `homework.py`. -/
def ENDPOINT : String :=
  "https://practicum.yandex.ru/api/user_api/homework_statuses/"

/-- Constant `RETRY_PERIOD` of `homework.py` (the inter-iteration sleep). -/
def RETRY_PERIOD : Nat := 600

/-- Constant `API_REQUEST_TIMEOUT` of `homework.py`. -/
def API_REQUEST_TIMEOUT : Nat := 5

/-- Constant `HOMEWORK_VERDICTS` of `homework.py`. -/
def HOMEWORK_VERDICTS : List (String × String) :=
  [("approved", "Работа проверена: ревьюеру всё понравилось. Ура!"),
   ("reviewing", "Работа взята на проверку ревьюером."),
   ("rejected", "Работа проверена: у ревьюера есть замечания.")]

/-- `check_tokens`: the list of names of tokens whose value is `None`
(`Option.none` models an unset environment variable; `some s` a set one,
possibly the empty string — the source tests `token_value is None` only). -/
def check_tokens_missing (practicum telegram chat : Option String) : List String :=
  (List.filter (fun kv => kv.2.isNone)
    [("PRACTICUM_TOKEN", practicum), ("TELEGRAM_TOKEN", telegram),
     ("TELEGRAM_CHAT_ID", chat)]).map Prod.fst

/-- `check_tokens()`: returns whether all required tokens are present, and
the critical log emitted when some are missing. -/
def check_tokens (practicum telegram chat : Option String) :
    Bool × List LogEntry :=
  let missing := check_tokens_missing practicum telegram chat
  if missing.isEmpty then (true, [])
  else
    (false,
     [⟨LogLevel.critical,
       "Отсутствуют обязательные токены: " ++ String.intercalate ", " missing⟩])

/-- The outcome of one `bot.send_message` call in the world the `try/except
TelegramError` boundary of `send_message` assumes: delivery either succeeds
or fails with the `telegram.error.TelegramError` class named by the
`except` clause.  The bot object actually in use, `telebot.TeleBot`,
signals delivery failure with other exception classes that this clause
does not match; that uncaught path is modelled faithfully by
`BotCallOutcome` / `send_message_refined` below, and the loop model keeps
the caught-failure world in which the remaining claims are stated. -/
inductive SendOutcome where
  | delivered
  | telegramError : String → SendOutcome
  deriving DecidableEq

/-- `send_message(bot, message)` over `SendOutcome`: attempts delivery,
logs debug on success and error on a caught failure, returns the success
flag. -/
def send_message (outcome : SendOutcome) (message : String) :
    Bool × List LogEntry :=
  match outcome with
  | .delivered =>
      (true, [⟨LogLevel.debug, "Бот отправил сообщение \"" ++ message ++ "\""⟩])
  | .telegramError err =>
      (false,
       [⟨LogLevel.error, "Ошибка при отправке сообщения в Telegram: " ++ err⟩])

/-- The class of the exception a failing `bot.send_message` call raises.
`telegramError` is `telegram.error.TelegramError`, the class the `except`
clause names — imported from the python-telegram-bot library.
`apiTelegramException` stands for the classes the `telebot.TeleBot`
actually in use raises on delivery failure
(`telebot.apihelper.ApiTelegramException`, or a `requests` transport
error); none of them is a subclass of `telegram.error.TelegramError`. -/
inductive BotExcClass where
  | telegramError
  | apiTelegramException
  deriving DecidableEq

/-- What one `bot.send_message` call does, refined to carry the raised
exception's class. -/
inductive BotCallOutcome where
  | returns
  | raises : BotExcClass → String → BotCallOutcome
  deriving DecidableEq

/-- `send_message(bot, message)` with its `try/except` lowered faithfully:
the `except telegram.error.TelegramError` arm matches only when the raised
exception is of that class, so any other exception — in particular every
delivery failure the `telebot.TeleBot` bot actually produces — propagates
out of the function (the `.error` result, carrying the exception's
rendering). -/
def send_message_refined (outcome : BotCallOutcome) (message : String) :
    Except String (Bool × List LogEntry) :=
  match outcome with
  | .returns =>
      .ok (true, [⟨LogLevel.debug, "Бот отправил сообщение \"" ++ message ++ "\""⟩])
  | .raises .telegramError err =>
      .ok (false,
           [⟨LogLevel.error, "Ошибка при отправке сообщения в Telegram: " ++ err⟩])
  | .raises .apiTelegramException err => .error err

/-- What the outside world answers to one `requests.get` call: either a
transport-level failure (`requests.exceptions.RequestException`, carrying
its rendering), or an HTTP response with status code, final URL, headers
(rendered), body text, and the result of decoding the body as JSON
(`Except.error` carries the `ValueError` rendering when the body is not
valid JSON). -/
inductive HttpResult where
  | transportError : String → HttpResult
  | response : Nat → String → String → String → Except String Json → HttpResult

/-- `get_api_answer(timestamp)`: one GET against the fixed endpoint.  The
`timestamp` argument only feeds the `from_date` query parameter of the
request, which is part of the world input here, so it does not influence
the modelled result.  Non-200 statuses, transport errors and undecodable
bodies all become `APIRequestError`; a 200 response with a decodable body
is returned decoded, unchanged.  The two-argument `raise APIRequestError(
"…: %s", error)` calls of the source stringify as a Python tuple, which the
message text mirrors. -/
def get_api_answer (_timestamp : Json) (r : HttpResult) : Except PyError Json :=
  match r with
  | .transportError err =>
      .error (.apiRequestError ("('Ошибка запроса к API: %s', " ++ err ++ ")"))
  | .response status url headers text body =>
      if status ≠ 200 then
        .error (.apiRequestError
          ("Эндпоинт " ++ ENDPOINT ++ " недоступен.\n " ++
           "Код ответа API: " ++ toString status ++ ".\n " ++
           "URL запроса: " ++ url ++ ".\n " ++
           "Хедеры ответа: " ++ headers ++ ".\n " ++
           "Текст ответа: " ++ text))
      else
        match body with
        | .ok j => .ok j
        | .error ve =>
            .error (.apiRequestError
              ("('Ошибка декодирования ответа API: %s', " ++ ve ++ ")"))

/-- `check_response(response)`: shape validation of the decoded response. -/
def check_response (response : Json) : Except PyError (List Json) :=
  match response with
  | .obj kvs =>
      if (getKey? kvs "homeworks").isNone then
        .error (.keyError "Отсутствует ожидаемый ключ \"homeworks\" в ответе API")
      else if (getKey? kvs "current_date").isNone then
        .error (.keyError "Отсутствует ожидаемый ключ \"current_date\" в ответе API")
      else
        match getKey? kvs "homeworks" with
        | some (.arr hws) => .ok hws
        | _ =>
            .error (.typeError
              "Ответ API имеет неверный формат: \"homeworks\" не является списком")
  | _ =>
      .error (.typeError "Ответ API имеет неверный формат: не является словарем")

/-- `parse_status(homework)`: renders the notification text for one
homework record, or raises `HomeworkStatusError` — except that an
unhashable status value (a list or a dict) makes the membership test
`homework_status not in HOMEWORK_VERDICTS` itself raise
`TypeError("unhashable type: …")` before any message is rendered. -/
def parse_status (homework : Json) : Except PyError String :=
  match homework with
  | .obj kvs =>
      match getKey? kvs "homework_name" with
      | none =>
          .error (.homeworkStatusError
            "Отсутствует ключ \"homework_name\" в информации о домашней работе")
      | some nameJ =>
          match getKey? kvs "status" with
          | none =>
              .error (.homeworkStatusError
                "Отсутствует ключ \"status\" в информации о домашней работе")
          | some statusJ =>
              match statusJ with
              | .str s =>
                  match lookupFirst HOMEWORK_VERDICTS s with
                  | some verdict =>
                      .ok ("Изменился статус проверки работы \"" ++
                           nameJ.pyStr ++ "\". " ++ verdict)
                  | none =>
                      .error (.homeworkStatusError
                        ("Неожиданный статус домашней работы: " ++ statusJ.pyStr))
              | .arr _ => .error (.typeError "unhashable type: 'list'")
              | .obj _ => .error (.typeError "unhashable type: 'dict'")
              | _ =>
                  .error (.homeworkStatusError
                    ("Неожиданный статус домашней работы: " ++ statusJ.pyStr))
  | _ =>
      .error (.homeworkStatusError
        "Информация о домашней работе имеет неверный формат")

/-- First-match lookup in a dict modelled as an association list with keys
of an arbitrary decidable type (used for `last_status`, whose keys are the
results of `homework.get("homework_name")`, i.e. `Option Json` with `none`
standing for Python `None`). -/
def dictLookup {α β : Type} [DecidableEq α] (k : α) : List (α × β) → Option β
  | [] => none
  | (k', v) :: rest => if k' = k then some v else dictLookup k rest

/-- Python dict assignment `d[k] = v`: replaces the value in place if the
key is present (order preserved), otherwise appends the new entry. -/
def dictInsert {α β : Type} [DecidableEq α] (k : α) (v : β) :
    List (α × β) → List (α × β)
  | [] => [(k, v)]
  | (k', v') :: rest =>
      if k' = k then (k, v) :: rest else (k', v') :: dictInsert k v rest

/-- Python `set.add`: appends only when absent. -/
def setInsert (s : String) (xs : List String) : List String :=
  if s ∈ xs then xs else xs ++ [s]

/-- The module-level mutable state of `main`: the poll cursor `timestamp`
(an `int` initially, but re-assigned to whatever JSON value `current_date`
holds), `last_error`, the set `unique_error_messages`, and the dict
`last_status` from homework name (`homework.get("homework_name")`, hence
`Option Json`) to last-observed status (`homework.get("status")`). -/
structure BotState where
  timestamp : Json
  last_error : Option String
  unique_error_messages : List String
  last_status : List (Option Json × Option Json)
  deriving DecidableEq

/-- The outside world's behaviour during one loop iteration: the answer to
the single `requests.get` call, and the outcome of a `bot.send_message`
call should one be made. -/
structure IterWorld where
  http : HttpResult
  send : SendOutcome

/-- The observable outcome of one loop iteration: the updated state, the
messages passed to `send_message` (in order), and the log records. -/
structure IterResult where
  state : BotState
  sent : List String
  logs : List LogEntry

/-- The `try` block of one iteration of `main`'s `while True` loop
(everything from `get_api_answer` through `last_error = None`).  On
success it returns the updated state together with the messages sent and
the logs emitted inside the block; when an exception is raised, no message
has been sent and no log emitted inside the block before the raise, so the
error alone is returned. -/
def iteration_try (w : IterWorld) (st : BotState) :
    Except PyError (BotState × List String × List LogEntry) :=
  match get_api_answer st.timestamp w.http with
  | .error e => .error e
  | .ok api_response =>
    match check_response api_response with
    | .error e => .error e
    | .ok homeworks =>
      match homeworks with
      | [] =>
          .ok ({ st with timestamp := api_response.getD "current_date" st.timestamp,
                         last_error := none },
               [], [⟨LogLevel.debug, "Отсутствие в ответе новых статусов"⟩])
      | homework :: _ =>
        match homework with
        | .obj hkvs =>
          let homework_name := getKey? hkvs "homework_name"
          let homework_status := getKey? hkvs "status"
          if dictLookup homework_name st.last_status = none ∨
             dictLookup homework_name st.last_status ≠ some homework_status then
            match parse_status homework with
            | .error e => .error e
            | .ok message =>
                let sm := send_message w.send message
                .ok ({ st with
                         timestamp := api_response.getD "current_date" st.timestamp,
                         last_error := none,
                         last_status :=
                           dictInsert homework_name homework_status st.last_status },
                     [message], sm.2)
          else
            .ok ({ st with timestamp := api_response.getD "current_date" st.timestamp,
                           last_error := none },
                 [], [])
        | _ =>
            .error (.attributeError
              ("'" ++ homework.pyTypeName ++ "' object has no attribute 'get'"))

/-- One full iteration of the `while True` loop: the `try` block above plus
the `except Exception` handler with its error-deduplication logic.  (The
`finally: time.sleep(RETRY_PERIOD)` has no observable effect in this
model.) -/
def main_iteration (w : IterWorld) (st : BotState) : IterResult :=
  match iteration_try w st with
  | .ok (st', sent, logs) => ⟨st', sent, logs⟩
  | .error e =>
      let estr := e.toStr
      let message := "Сбой в работе программы: " ++ estr
      if some estr ≠ st.last_error then
        if estr ∉ st.unique_error_messages then
          let sm := send_message w.send message
          ⟨{ st with last_error := some estr,
                     unique_error_messages :=
                       setInsert estr st.unique_error_messages },
           [message], ⟨LogLevel.error, message⟩ :: sm.2⟩
        else
          ⟨{ st with last_error := some estr }, [],
           [⟨LogLevel.error, message⟩]⟩
      else
        ⟨st, [], [⟨LogLevel.error, message⟩]⟩

/-- Runs the loop for the given finite prefix of world behaviours,
accumulating sent messages and logs. -/
def run_iters : List IterWorld → BotState → BotState × List String × List LogEntry
  | [], st => (st, [], [])
  | w :: rest, st =>
      let r := main_iteration w st
      let (st', sent', logs') := run_iters rest r.state
      (st', r.sent ++ sent', r.logs ++ logs')

/-- The state set up by `main` just before the loop: `timestamp =
int(time.time())`, empty error memory, empty status memory. -/
def initialState (t0 : Int) : BotState :=
  { timestamp := .num t0, last_error := none,
    unique_error_messages := [], last_status := [] }

/-- `main()` observed over a finite prefix of the infinite loop: the token
check (raising `MissingTokensError` before any polling when it fails),
then `run_iters` from the initial state.  The second component collects
all logs. -/
def main_run (practicum telegram chat : Option String) (t0 : Int)
    (ws : List IterWorld) :
    Except PyError (BotState × List String) × List LogEntry :=
  let ct := check_tokens practicum telegram chat
  if ct.1 then
    let (st, sent, logs) := run_iters ws (initialState t0)
    (.ok (st, sent), ct.2 ++ logs)
  else
    (.error (.missingTokensError "Отсутствуют обязательные токены"), ct.2)

/-- The chat text the loop sends for an exception whose `str` is `t`
(`f"Сбой в работе программы: {error}"`). -/
def errorNotificationText (t : String) : String :=
  "Сбой в работе программы: " ++ t

/-- A well-shaped API response body with the given homeworks list and
`current_date` value (the shape of §6 of the spec). -/
def pollResponse (hws : List Json) (cd : Json) : Json :=
  .obj [("homeworks", .arr hws), ("current_date", cd)]

/-- A homework record with the given name and status. -/
def hwRecord (name status : String) : Json :=
  .obj [("homework_name", .str name), ("status", .str status)]

/-- The field value `homework.get("status")` is one of the three recognized
verdict keys. -/
def RecognizedStatus (v : Option Json) : Prop :=
  ∃ s, v = some (Json.str s) ∧ (lookupFirst HOMEWORK_VERDICTS s).isSome

theorem head_of_append (a b : String) (x : Char) (h : a.data.head? = some x) :
    (a ++ b).data.head? = some x := by
  rw [String.data_append]
  cases ha : a.data with
  | nil => rw [ha] at h; simp at h
  | cons y t => rw [ha] at h; simp at h; simp [ha, h]

/-- A rendered status message never coincides with an error notification:
the former starts with «И», the latter with «С». -/
theorem status_message_ne_error (n v t : String) :
    "Изменился статус проверки работы \"" ++ n ++ "\". " ++ v ≠
      errorNotificationText t := by
  intro h
  have hd := congrArg (fun s : String => s.data.head?) h
  simp only at hd
  have h1 : (("Изменился статус проверки работы \"" ++ n ++ "\". ") ++ v).data.head? =
      some 'И' := by
    apply head_of_append; apply head_of_append; apply head_of_append; decide
  have h2 : (errorNotificationText t).data.head? = some 'С' := by
    apply head_of_append; decide
  rw [h1, h2] at hd
  simp at hd

/-- Error notifications for different error texts are different messages. -/
theorem errorNotificationText_inj {a b : String}
    (h : errorNotificationText a = errorNotificationText b) : a = b := by
  have hd := congrArg String.data h
  rw [errorNotificationText, errorNotificationText, String.data_append,
    String.data_append] at hd
  exact String.ext (List.append_cancel_left hd)

/-- Every message `parse_status` returns has the fixed template shape. -/
theorem parse_status_ok_shape (hw : Json) (m : String)
    (h : parse_status hw = .ok m) :
    ∃ n v, m = "Изменился статус проверки работы \"" ++ n ++ "\". " ++ v := by
  unfold parse_status at h
  repeat' split at h
  all_goals
    first
      | (simp only [Except.ok.injEq] at h
         exact ⟨_, _, h.symm⟩)
      | exact absurd h (by simp)

/-- On a successful `try` block, the iteration's observables are the
block's result. -/
theorem main_iteration_ok_state (w : IterWorld) (st : BotState)
    (r : BotState × List String × List LogEntry)
    (h : iteration_try w st = .ok r) :
    (main_iteration w st).state = r.1 ∧ (main_iteration w st).sent = r.2.1 ∧
    (main_iteration w st).logs = r.2.2 := by
  obtain ⟨a, sent, logs⟩ := r
  unfold main_iteration
  rw [h]
  exact ⟨rfl, rfl, rfl⟩

/-- C3 (code bug): the claim — and the except/log/return-False structure of
`send_message` itself — intend a non-fatal delivery boundary that logs at
error level, returns `false` and never raises.  The code is a slip: the
`except` clause names `telegram.error.TelegramError`, a class from the
python-telegram-bot library, while the bot in use is a `telebot.TeleBot`,
whose delivery failures raise `telebot.apihelper.ApiTelegramException` or
`requests` errors — not that class.  Evaluated faithfully: a real delivery
failure propagates out of `send_message` (first conjunct, at the concrete
failing input); the claimed boundary holds only for the class the bot never
raises (second conjunct); every actually-raised failure escapes (third
conjunct), so a broken chat channel can stop the loop when the escape
happens at the error-notification send inside the loop's `except` handler. -/
theorem send_message_uncaught_delivery_failure :
    send_message_refined
        (.raises .apiTelegramException
          "A request to the Telegram API was unsuccessful. Error code: 400. Description: Bad Request: chat not found")
        "Сбой в работе программы: x" =
      .error
        "A request to the Telegram API was unsuccessful. Error code: 400. Description: Bad Request: chat not found" ∧
    (∀ err message : String,
        send_message_refined (.raises .telegramError err) message =
          .ok (false,
            [⟨LogLevel.error, "Ошибка при отправке сообщения в Telegram: " ++ err⟩])) ∧
    (∀ err message : String,
        send_message_refined (.raises .apiTelegramException err) message =
          .error err) :=
  ⟨rfl, fun _ _ => rfl, fun _ _ => rfl⟩

/-- C5: a non-200 response makes `get_api_answer` raise an
`APIRequestError` whose message carries the endpoint, the status code, the
request URL, the response headers and the response body; transport errors
and undecodable bodies raise the same error kind; a 200 response with a
decodable body is returned decoded and unchanged. -/
theorem get_api_answer_failures :
    (∀ (ts : Json) (status : Nat) (url headers text : String)
        (body : Except String Json), status ≠ 200 →
        get_api_answer ts (.response status url headers text body) =
          .error (.apiRequestError
            ("Эндпоинт " ++ ENDPOINT ++ " недоступен.\n " ++
             "Код ответа API: " ++ toString status ++ ".\n " ++
             "URL запроса: " ++ url ++ ".\n " ++
             "Хедеры ответа: " ++ headers ++ ".\n " ++
             "Текст ответа: " ++ text))) ∧
    (∀ (ts : Json) (err : String), ∃ m,
        get_api_answer ts (.transportError err) = .error (.apiRequestError m)) ∧
    (∀ (ts : Json) (url headers text ve : String), ∃ m,
        get_api_answer ts (.response 200 url headers text (.error ve)) =
          .error (.apiRequestError m)) ∧
    (∀ (ts : Json) (url headers text : String) (j : Json),
        get_api_answer ts (.response 200 url headers text (.ok j)) = .ok j) := by
  refine ⟨fun ts status url headers text body hne => ?_, fun ts err => ⟨_, rfl⟩,
    fun ts url headers text ve =>
      ⟨"('Ошибка декодирования ответа API: %s', " ++ ve ++ ")", ?_⟩,
    fun ts url headers text j => ?_⟩
  · simp [get_api_answer, hne]
  · simp [get_api_answer]
  · simp [get_api_answer]

/-- C5 witness: a 404 answer at a concrete input. -/
theorem get_api_answer_failures_witness :
    get_api_answer (.num 0) (.response 404 "url" "hdrs" "body" (.ok (Json.obj []))) =
      .error (.apiRequestError
        ("Эндпоинт " ++ ENDPOINT ++ " недоступен.\n " ++
         "Код ответа API: " ++ toString (404 : Nat) ++ ".\n " ++
         "URL запроса: " ++ "url" ++ ".\n " ++
         "Хедеры ответа: " ++ "hdrs" ++ ".\n " ++
         "Текст ответа: " ++ "body")) :=
  get_api_answer_failures.1 (.num 0) 404 "url" "hdrs" "body" (.ok (Json.obj []))
    (by decide)

/-- C6: `check_response` rejects non-dicts with `TypeError`, responses
missing `homeworks` or `current_date` with `KeyError`, a non-list
`homeworks` with `TypeError`, and otherwise returns the `homeworks` list
unchanged (possibly empty, order preserved). -/
theorem check_response_shape_validation :
    (∀ j : Json, (∀ kvs, j ≠ .obj kvs) →
        check_response j =
          .error (.typeError "Ответ API имеет неверный формат: не является словарем")) ∧
    (∀ kvs, getKey? kvs "homeworks" = none →
        check_response (.obj kvs) =
          .error (.keyError "Отсутствует ожидаемый ключ \"homeworks\" в ответе API")) ∧
    (∀ kvs, (getKey? kvs "homeworks").isSome →
        getKey? kvs "current_date" = none →
        check_response (.obj kvs) =
          .error (.keyError "Отсутствует ожидаемый ключ \"current_date\" в ответе API")) ∧
    (∀ kvs v, getKey? kvs "homeworks" = some v →
        (getKey? kvs "current_date").isSome →
        (∀ xs, v ≠ .arr xs) →
        check_response (.obj kvs) =
          .error (.typeError
            "Ответ API имеет неверный формат: \"homeworks\" не является списком")) ∧
    (∀ kvs hws, getKey? kvs "homeworks" = some (.arr hws) →
        (getKey? kvs "current_date").isSome →
        check_response (.obj kvs) = .ok hws) := by
  refine ⟨?_, ?_, ?_, ?_, ?_⟩
  · intro j hj
    cases j with
    | obj kvs => exact absurd rfl (hj kvs)
    | null => rfl
    | bool b => rfl
    | num n => rfl
    | str s => rfl
    | arr xs => rfl
  · intro kvs hmiss
    simp [check_response, hmiss]
  · intro kvs hsome hmiss
    obtain ⟨v, hv⟩ := Option.isSome_iff_exists.mp hsome
    simp [check_response, hv, hmiss]
  · intro kvs v hv hcd hne
    obtain ⟨cd, hcd'⟩ := Option.isSome_iff_exists.mp hcd
    cases v with
    | arr xs => exact absurd rfl (hne xs)
    | null => simp [check_response, hv, hcd']
    | bool b => simp [check_response, hv, hcd']
    | num n => simp [check_response, hv, hcd']
    | str s => simp [check_response, hv, hcd']
    | obj o => simp [check_response, hv, hcd']
  · intro kvs hws hv hcd
    obtain ⟨cd, hcd'⟩ := Option.isSome_iff_exists.mp hcd
    simp [check_response, hv, hcd']

/-- C6 witness: a well-formed response at a concrete input, returned
unchanged. -/
theorem check_response_shape_validation_witness :
    check_response
        (.obj [("homeworks", .arr [hwRecord "hw1" "approved"]),
               ("current_date", .num 5)]) =
      .ok [hwRecord "hw1" "approved"] :=
  check_response_shape_validation.2.2.2.2 _ _ (by decide) (by decide)

/-- C7 counterexample: an unhashable status value makes the membership
test of line 141 raise `TypeError("unhashable type: …")` — not the
homework-status failure the claim asserts for every unrecognized input. -/
theorem unhashable_status_raises_typeerror :
    parse_status (.obj [("homework_name", .str "hw1"), ("status", .arr [])]) =
      .error (.typeError "unhashable type: 'list'") ∧
    parse_status (.obj [("homework_name", .str "hw1"), ("status", .obj [])]) =
      .error (.typeError "unhashable type: 'dict'") :=
  ⟨rfl, rfl⟩

/-- C7 (amended): for a mapping with `homework_name` and a recognized
`status`, `parse_status` renders exactly the fixed template — the name
rendered as a Python f-string renders it, container contents included —
with the verdict from the static three-entry table.  A non-mapping, a
missing key, or a hashable unrecognized status (None, a bool, a number, or
an unrecognized string) raises `HomeworkStatusError`; an unhashable status
(a list or a dict) instead raises `TypeError` from the membership test,
before any message is rendered.  No unrecognized input ever returns a
message. -/
theorem parse_status_rendering :
    HOMEWORK_VERDICTS.length = 3 ∧
    (∀ kvs nameJ s verdict,
        getKey? kvs "homework_name" = some nameJ →
        getKey? kvs "status" = some (.str s) →
        lookupFirst HOMEWORK_VERDICTS s = some verdict →
        parse_status (.obj kvs) =
          .ok ("Изменился статус проверки работы \"" ++ nameJ.pyStr ++ "\". " ++
               verdict)) ∧
    (∀ j : Json, (∀ kvs, j ≠ .obj kvs) →
        parse_status j =
          .error (.homeworkStatusError
            "Информация о домашней работе имеет неверный формат")) ∧
    (∀ kvs, getKey? kvs "homework_name" = none →
        parse_status (.obj kvs) =
          .error (.homeworkStatusError
            "Отсутствует ключ \"homework_name\" в информации о домашней работе")) ∧
    (∀ kvs nameJ, getKey? kvs "homework_name" = some nameJ →
        getKey? kvs "status" = none →
        parse_status (.obj kvs) =
          .error (.homeworkStatusError
            "Отсутствует ключ \"status\" в информации о домашней работе")) ∧
    (∀ kvs nameJ statusJ, getKey? kvs "homework_name" = some nameJ →
        getKey? kvs "status" = some statusJ →
        ¬ RecognizedStatus (some statusJ) →
        (∀ xs, statusJ ≠ .arr xs) → (∀ o, statusJ ≠ .obj o) →
        parse_status (.obj kvs) =
          .error (.homeworkStatusError
            ("Неожиданный статус домашней работы: " ++ statusJ.pyStr))) ∧
    (∀ kvs nameJ xs, getKey? kvs "homework_name" = some nameJ →
        getKey? kvs "status" = some (.arr xs) →
        parse_status (.obj kvs) = .error (.typeError "unhashable type: 'list'")) ∧
    (∀ kvs nameJ o, getKey? kvs "homework_name" = some nameJ →
        getKey? kvs "status" = some (.obj o) →
        parse_status (.obj kvs) = .error (.typeError "unhashable type: 'dict'")) := by
  refine ⟨rfl, ?_, ?_, ?_, ?_, ?_, ?_, ?_⟩
  · intro kvs nameJ s verdict hn hs hv
    simp [parse_status, hn, hs, hv]
  · intro j hj
    cases j with
    | obj kvs => exact absurd rfl (hj kvs)
    | null => rfl
    | bool b => rfl
    | num n => rfl
    | str s => rfl
    | arr xs => rfl
  · intro kvs hn
    simp [parse_status, hn]
  · intro kvs nameJ hn hs
    simp [parse_status, hn, hs]
  · intro kvs nameJ statusJ hn hs hbad harr hobj
    cases statusJ with
    | str s =>
        cases hv : lookupFirst HOMEWORK_VERDICTS s with
        | some verdict =>
            exact absurd ⟨s, rfl, by rw [hv]; rfl⟩ hbad
        | none => simp [parse_status, hn, hs, hv]
    | null => simp [parse_status, hn, hs]
    | bool b => simp [parse_status, hn, hs]
    | num n => simp [parse_status, hn, hs]
    | arr xs => exact absurd rfl (harr xs)
    | obj o => exact absurd rfl (hobj o)
  · intro kvs nameJ xs hn hs
    simp [parse_status, hn, hs]
  · intro kvs nameJ o hn hs
    simp [parse_status, hn, hs]

/-- C7 witness: a recognized record, a recognized record whose name is a
list (rendered with its contents), an unrecognized string status, and an
unhashable status. -/
theorem parse_status_rendering_witness :
    parse_status (hwRecord "hw1" "approved") =
      .ok "Изменился статус проверки работы \"hw1\". Работа проверена: ревьюеру всё понравилось. Ура!" ∧
    parse_status (.obj [("homework_name", .arr [.str "hw1"]),
                        ("status", .str "approved")]) =
      .ok "Изменился статус проверки работы \"['hw1']\". Работа проверена: ревьюеру всё понравилось. Ура!" ∧
    parse_status (hwRecord "hw1" "unknown_status") =
      .error (.homeworkStatusError
        "Неожиданный статус домашней работы: unknown_status") ∧
    parse_status (.obj [("homework_name", .str "hw1"),
                        ("status", .arr [.str "approved"])]) =
      .error (.typeError "unhashable type: 'list'") := by
  refine ⟨?_, ?_, ?_, ?_⟩
  · exact (parse_status_rendering.2.1
      [("homework_name", Json.str "hw1"), ("status", Json.str "approved")]
      (Json.str "hw1") "approved" "Работа проверена: ревьюеру всё понравилось. Ура!"
      (by decide) (by decide) (by decide)).trans (by decide)
  · exact (parse_status_rendering.2.1
      [("homework_name", Json.arr [Json.str "hw1"]), ("status", Json.str "approved")]
      (Json.arr [Json.str "hw1"]) "approved"
      "Работа проверена: ревьюеру всё понравилось. Ура!"
      (by decide) (by decide) (by decide)).trans (by decide)
  · refine (parse_status_rendering.2.2.2.2.2.1
      [("homework_name", Json.str "hw1"), ("status", Json.str "unknown_status")]
      (Json.str "hw1") (Json.str "unknown_status")
      (by decide) (by decide) ?_ (fun xs h => Json.noConfusion h)
      (fun o h => Json.noConfusion h)).trans (by decide)
    rintro ⟨s, hs, hv⟩
    simp only [Option.some.injEq, Json.str.injEq] at hs
    rw [← hs] at hv
    exact absurd hv (by decide)
  · exact parse_status_rendering.2.2.2.2.2.2.1
      [("homework_name", Json.str "hw1"), ("status", Json.arr [Json.str "approved"])]
      (Json.str "hw1") [Json.str "approved"] (by decide) (by decide)

/-- C4 counterexample: the claim says a present-but-empty credential must
make startup fail, but `check_tokens` only tests `token_value is None`, so
the empty string passes the check and a polling iteration runs (here it
completes an iteration and advances the cursor). -/
theorem empty_token_passes_check :
    (check_tokens (some "") (some "tg-token") (some "chat-id")).1 = true ∧
    (main_run (some "") (some "tg-token") (some "chat-id") 0
        [⟨.response 200 "u" "h" "t"
            (.ok (pollResponse [] (.num 1700000000))), .delivered⟩]).1 =
      .ok ({ timestamp := .num 1700000000, last_error := none,
             unique_error_messages := [], last_status := [] }, []) := by
  exact ⟨rfl, by decide⟩

/-- C4 (amended): startup fails with the missing-credentials failure and no
polling iteration ever occurs exactly when at least one credential is
absent (`None`).  Presence, not non-emptiness, is what the code checks: an
empty-string credential starts the loop (see the counterexample). -/
theorem missing_token_fatal_startup (p t c : Option String)
    (h : p = none ∨ t = none ∨ c = none) :
    (check_tokens p t c).1 = false ∧
    (∀ t0 ws, main_run p t c t0 ws =
      (.error (.missingTokensError "Отсутствуют обязательные токены"),
       (check_tokens p t c).2)) := by
  have hfalse : (check_tokens p t c).1 = false := by
    cases p <;> cases t <;> cases c <;>
      simp_all [check_tokens, check_tokens_missing]
  refine ⟨hfalse, fun t0 ws => ?_⟩
  simp only [main_run]
  rw [hfalse]
  simp

/-- C4 witness: an absent first credential at a concrete input. -/
theorem missing_token_fatal_startup_witness :
    (check_tokens none (some "tg") (some "chat")).1 = false ∧
    main_run none (some "tg") (some "chat") 0
        [⟨.transportError "boom", .delivered⟩] =
      (.error (.missingTokensError "Отсутствуют обязательные токены"),
       (check_tokens none (some "tg") (some "chat")).2) := by
  have h := missing_token_fatal_startup none (some "tg") (some "chat") (Or.inl rfl)
  exact ⟨h.1, h.2 0 [⟨.transportError "boom", .delivered⟩]⟩

/-- C10: after every successful iteration the cursor equals the response's
`current_date` value exactly as received; `check_response` checks only its
presence, so a non-integer value such as a string is accepted as the cursor
(and it is the state's `timestamp` that the next iteration hands to
`get_api_answer` as `from_date`). -/
theorem cursor_tracks_current_date :
    (∀ (w : IterWorld) (st : BotState) r (u hh tt : String) kvs cd,
        w.http = .response 200 u hh tt (.ok (.obj kvs)) →
        getKey? kvs "current_date" = some cd →
        iteration_try w st = .ok r →
        r.1.timestamp = cd) ∧
    ((main_iteration
        ⟨.response 200 "u" "h" "t"
           (.ok (pollResponse [] (.str "not-a-timestamp"))), .delivered⟩
        (initialState 0)).state.timestamp = .str "not-a-timestamp") := by
  constructor
  · intro w st r u hh tt kvs cd hresp hcd htry
    unfold iteration_try at htry
    rw [hresp] at htry
    rw [show get_api_answer st.timestamp
          (HttpResult.response 200 u hh tt (.ok (.obj kvs))) = .ok (.obj kvs)
        from rfl] at htry
    dsimp only at htry
    repeat' split at htry
    all_goals
      first
        | exact Except.noConfusion htry
        | (injection htry with htry'
           subst htry'
           simp [Json.getD, hcd])
  · decide

/-- C10 witness: the general clause applied at a concrete response whose
`current_date` is the string "oops". -/
theorem cursor_tracks_current_date_witness :
    (({ timestamp := Json.str "oops", last_error := none,
        unique_error_messages := [], last_status := [] } : BotState),
      ([] : List String),
      [(⟨LogLevel.debug, "Отсутствие в ответе новых статусов"⟩ : LogEntry)]).1.timestamp =
      Json.str "oops" := by
  refine cursor_tracks_current_date.1
    ⟨.response 200 "u" "h" "t" (.ok (pollResponse [] (.str "oops"))), .delivered⟩
    (initialState 0) _ "u" "h" "t"
    [("homeworks", .arr []), ("current_date", .str "oops")] (.str "oops")
    rfl (by decide) (by decide)

/-- C8: when the API response lacks the `homeworks` key, `check_response`
raises the missing-key failure, the loop logs it at error level, and both
the status memory and the poll cursor are left exactly as they were. -/
theorem missing_homeworks_preserves_state (w : IterWorld) (st : BotState)
    (u hh tt : String) (kvs : List (String × Json))
    (hresp : w.http = .response 200 u hh tt (.ok (.obj kvs)))
    (hmiss : getKey? kvs "homeworks" = none) :
    check_response (.obj kvs) =
      .error (.keyError "Отсутствует ожидаемый ключ \"homeworks\" в ответе API") ∧
    (main_iteration w st).state.last_status = st.last_status ∧
    (main_iteration w st).state.timestamp = st.timestamp ∧
    ⟨LogLevel.error,
        errorNotificationText
          "'Отсутствует ожидаемый ключ \"homeworks\" в ответе API'"⟩ ∈
      (main_iteration w st).logs := by
  have hcr : check_response (.obj kvs) =
      .error (.keyError "Отсутствует ожидаемый ключ \"homeworks\" в ответе API") := by
    simp [check_response, hmiss]
  have htry : iteration_try w st =
      .error (.keyError "Отсутствует ожидаемый ключ \"homeworks\" в ответе API") := by
    unfold iteration_try
    rw [hresp]
    rw [show get_api_answer st.timestamp
          (HttpResult.response 200 u hh tt (.ok (.obj kvs))) = .ok (.obj kvs)
        from rfl]
    dsimp only
    rw [hcr]
  refine ⟨hcr, ?_⟩
  unfold main_iteration
  rw [htry]
  dsimp only
  repeat' split
  all_goals
    refine ⟨rfl, rfl, ?_⟩
  all_goals
    simp [errorNotificationText, PyError.toStr]

/-- C8 witness: a concrete response consisting only of `current_date`. -/
theorem missing_homeworks_preserves_state_witness :
    check_response (.obj [("current_date", .num 5)]) =
      .error (.keyError "Отсутствует ожидаемый ключ \"homeworks\" в ответе API") ∧
    (main_iteration
        ⟨.response 200 "u" "h" "t" (.ok (.obj [("current_date", .num 5)])), .delivered⟩
        (initialState 0)).state.last_status = (initialState 0).last_status ∧
    (main_iteration
        ⟨.response 200 "u" "h" "t" (.ok (.obj [("current_date", .num 5)])), .delivered⟩
        (initialState 0)).state.timestamp = (initialState 0).timestamp ∧
    ⟨LogLevel.error,
        errorNotificationText
          "'Отсутствует ожидаемый ключ \"homeworks\" в ответе API'"⟩ ∈
      (main_iteration
        ⟨.response 200 "u" "h" "t" (.ok (.obj [("current_date", .num 5)])), .delivered⟩
        (initialState 0)).logs :=
  missing_homeworks_preserves_state
    ⟨.response 200 "u" "h" "t" (.ok (.obj [("current_date", .num 5)])), .delivered⟩
    (initialState 0) "u" "h" "t" [("current_date", .num 5)] rfl (by decide)

/-- A message returned by `parse_status` is never an error notification. -/
theorem sent_ok_ne_errorNotification (hw : Json) (m t : String)
    (h : parse_status hw = .ok m) : m ≠ errorNotificationText t := by
  obtain ⟨n, v, rfl⟩ := parse_status_ok_shape hw m h
  exact status_message_ne_error n v t

/-- The inserted element is in the set. -/
theorem mem_setInsert_self (s : String) (xs : List String) :
    s ∈ setInsert s xs := by
  unfold setInsert
  split
  · assumption
  · simp

/-- `setInsert` keeps existing elements. -/
theorem mem_setInsert_of_mem (a s : String) (xs : List String) (h : a ∈ xs) :
    a ∈ setInsert s xs := by
  unfold setInsert
  split
  · exact h
  · exact List.mem_append_left _ h

/-- A successful `try` block leaves the error memory untouched and sends
either nothing or a single rendered status message. -/
theorem iteration_try_ok_shape (w : IterWorld) (st : BotState)
    (r : BotState × List String × List LogEntry)
    (h : iteration_try w st = .ok r) :
    r.1.unique_error_messages = st.unique_error_messages ∧
    r.1.last_error = none ∧
    (r.2.1 = [] ∨ ∃ hw m, parse_status hw = .ok m ∧ r.2.1 = [m]) := by
  unfold iteration_try at h
  cases hga : get_api_answer st.timestamp w.http <;> rw [hga] at h
  case error e => exact Except.noConfusion h
  case ok api =>
    dsimp only at h
    cases hcr : check_response api <;> rw [hcr] at h
    case error e => exact Except.noConfusion h
    case ok hws =>
      dsimp only at h
      cases hws with
      | nil =>
          injection h with h'
          subst h'
          exact ⟨rfl, rfl, Or.inl rfl⟩
      | cons hw rest =>
          dsimp only at h
          cases hw with
          | obj hkvs =>
              dsimp only at h
              by_cases hc :
                  dictLookup (getKey? hkvs "homework_name") st.last_status = none ∨
                  dictLookup (getKey? hkvs "homework_name") st.last_status ≠
                    some (getKey? hkvs "status")
              · rw [if_pos hc] at h
                cases hps : parse_status (Json.obj hkvs) with
                | error e => rw [hps] at h; exact Except.noConfusion h
                | ok m =>
                    rw [hps] at h
                    injection h with h'
                    subst h'
                    exact ⟨rfl, rfl, Or.inr ⟨Json.obj hkvs, m, hps, rfl⟩⟩
              · rw [if_neg hc] at h
                injection h with h'
                subst h'
                exact ⟨rfl, rfl, Or.inl rfl⟩
          | null => exact Except.noConfusion h
          | bool b => exact Except.noConfusion h
          | num n => exact Except.noConfusion h
          | str s => exact Except.noConfusion h
          | arr xs => exact Except.noConfusion h

/-- One iteration sends the error notification for a given text at most
once, and only while marking the text as notified: the number of copies
sent plus the remaining allowance never grows. -/
theorem main_iteration_error_count (t : String) (w : IterWorld) (st : BotState) :
    (main_iteration w st).sent.count (errorNotificationText t) +
      (if t ∈ (main_iteration w st).state.unique_error_messages then 0 else 1) ≤
    (if t ∈ st.unique_error_messages then 0 else 1) := by
  cases hit : iteration_try w st with
  | ok r =>
      obtain ⟨hu, _, hsent⟩ := iteration_try_ok_shape w st r hit
      obtain ⟨hst, hsent', _⟩ := main_iteration_ok_state w st r hit
      rw [hst, hsent', hu]
      rcases hsent with h0 | ⟨hw, m, hps, h1⟩
      · rw [h0]
        simp
      · rw [h1]
        have hne : errorNotificationText t ∉ [m] := by
          simp only [List.mem_singleton]
          intro hEq
          exact sent_ok_ne_errorNotification hw m t hps hEq.symm
        rw [List.count_eq_zero.mpr hne]
        simp
  | error e =>
      unfold main_iteration
      rw [hit]
      dsimp only
      by_cases hl : some e.toStr ≠ st.last_error
      · by_cases hu : e.toStr ∉ st.unique_error_messages
        · rw [if_pos hl, if_pos hu]
          dsimp only
          by_cases hts : e.toStr = t
          · subst hts
            rw [if_pos (mem_setInsert_self e.toStr st.unique_error_messages),
                if_neg hu]
            have hcs :
                ("Сбой в работе программы: " ++ e.toStr) =
                  errorNotificationText e.toStr := rfl
            rw [hcs]
            simp
          · have hcnt :
                ([("Сбой в работе программы: " ++ e.toStr : String)].count
                  (errorNotificationText t)) = 0 := by
              rw [List.count_eq_zero]
              simp only [List.mem_singleton]
              intro hEq
              exact hts (errorNotificationText_inj hEq).symm
            rw [hcnt]
            by_cases hmem : t ∈ st.unique_error_messages
            · rw [if_pos (mem_setInsert_of_mem t e.toStr _ hmem), if_pos hmem]
            · rw [if_neg hmem]
              split <;> omega
        · rw [if_pos hl, if_neg hu]
          simp
      · rw [if_neg hl]
        simp

/-- Bound over a whole run: each error text is notified at most its
remaining allowance. -/
theorem run_iters_error_count (t : String) (ws : List IterWorld) :
    ∀ st : BotState,
      (run_iters ws st).2.1.count (errorNotificationText t) ≤
        (if t ∈ st.unique_error_messages then 0 else 1) := by
  induction ws with
  | nil => intro st; simp [run_iters]
  | cons w rest ih =>
      intro st
      have h1 := main_iteration_error_count t w st
      have h2 := ih (main_iteration w st).state
      unfold run_iters
      dsimp only
      cases hr : run_iters rest (main_iteration w st).state with
      | mk st' p =>
          obtain ⟨sent', logs'⟩ := p
          rw [hr] at h2
          dsimp only at h2 ⊢
          rw [List.count_append]
          omega

/-- C2: over the whole process lifetime, at most one chat notification
carrying a given error text is ever sent — even across non-consecutive
failing iterations with successful iterations in between — while every
iteration whose `try` block raises logs the error text at error level. -/
theorem error_text_notified_at_most_once (t : String) (t0 : Int)
    (ws : List IterWorld) :
    (run_iters ws (initialState t0)).2.1.count (errorNotificationText t) ≤ 1 ∧
    (∀ (w : IterWorld) (st : BotState) (e : PyError),
        iteration_try w st = .error e →
        (⟨LogLevel.error, errorNotificationText e.toStr⟩ : LogEntry) ∈
          (main_iteration w st).logs) := by
  constructor
  · have h := run_iters_error_count t ws (initialState t0)
    simpa [initialState] using h
  · intro w st e h
    unfold main_iteration
    rw [h]
    dsimp only
    repeat' split
    all_goals simp [errorNotificationText]

/-- C2 witness: the same transport error twice; the notification text is
counted at most once over the run and the failing iteration logs it. -/
theorem error_text_notified_at_most_once_witness :
    (run_iters
        [⟨.transportError "boom", .delivered⟩, ⟨.transportError "boom", .delivered⟩]
        (initialState 0)).2.1.count
      (errorNotificationText "('Ошибка запроса к API: %s', boom)") ≤ 1 ∧
    (⟨LogLevel.error, errorNotificationText
        (PyError.apiRequestError "('Ошибка запроса к API: %s', boom)").toStr⟩ :
        LogEntry) ∈
      (main_iteration ⟨.transportError "boom", .delivered⟩ (initialState 0)).logs :=
  ⟨(error_text_notified_at_most_once "('Ошибка запроса к API: %s', boom)" 0
      [⟨.transportError "boom", .delivered⟩, ⟨.transportError "boom", .delivered⟩]).1,
   (error_text_notified_at_most_once "('Ошибка запроса к API: %s', boom)" 0 []).2
     ⟨.transportError "boom", .delivered⟩ (initialState 0)
     (.apiRequestError "('Ошибка запроса к API: %s', boom)") (by decide)⟩

end HomeworkBot
